import Mathlib

/-!
# Verification of X3DomHelper (src/X3DomHelper.js)

A shallow embedding of the helper library `X3DomHelper.js`, a thin facade
over the x3dom rendering engine and the browser DOM.  JavaScript numbers
are idealised as rationals extended with the IEEE special values
(`JSNum`); DOM elements touched by the appearance operations are modelled
by the record of the fields the code reads and writes; engine matrices are
kept symbolic (`Mat`), since the code only builds and composes them and
hands the result to the engine.  Side effects of the camera operations are
recorded as an explicit trace of operations (`Op`).
-/

set_option autoImplicit false

/-- A JavaScript number: a finite value (idealised as an exact rational)
or one of the IEEE special values `Infinity`, `-Infinity`, `NaN`.
The distinction between `0` and `-0` is not modelled. -/
inductive JSNum where
  | fin : ℚ → JSNum
  | posInf : JSNum
  | negInf : JSNum
  | nan : JSNum
deriving DecidableEq, Repr

namespace JSNum

/-- JavaScript division (`a / b`), following IEEE-754 semantics on the
modelled values: division of a nonzero finite value by zero yields a
signed infinity, `0 / 0` yields `NaN`, and `NaN` propagates. -/
def jsDiv : JSNum → JSNum → JSNum
  | fin a, fin b =>
      if b ≠ 0 then fin (a / b)
      else if 0 < a then posInf
      else if a < 0 then negInf
      else nan
  | fin _, posInf => fin 0
  | fin _, negInf => fin 0
  | posInf, fin b => if 0 ≤ b then posInf else negInf
  | negInf, fin b => if 0 ≤ b then negInf else posInf
  | posInf, posInf => nan
  | posInf, negInf => nan
  | negInf, posInf => nan
  | negInf, negInf => nan
  | nan, _ => nan
  | _, nan => nan

/-- JavaScript `Math.abs`. -/
def jsAbs : JSNum → JSNum
  | fin a => fin |a|
  | posInf => posInf
  | negInf => posInf
  | nan => nan

/-- JavaScript number-to-string conversion (`String(n)` / `Array.join`),
modelled exactly on the special values and on integral finite values
(the only finite values this development ever prints); a non-integral
finite value is mapped to the unspecified token `"?"`, since its JS
rendering depends on binary-double shortest-representation formatting,
which the rational idealisation cannot reproduce. -/
def jsNumToString : JSNum → String
  | fin q => if q.den = 1 then toString q.num else "?"
  | posInf => "Infinity"
  | negInf => "-Infinity"
  | nan => "NaN"

end JSNum

/-- A JavaScript value as far as the appearance-stash code observes it:
`undefined` (property never set), `null`, or a string. -/
inductive JSVal where
  | undef : JSVal
  | null : JSVal
  | str : String → JSVal
deriving DecidableEq, Repr

namespace JSVal

/-- JavaScript falsiness restricted to the values of `JSVal`:
`undefined`, `null` and the empty string are falsy (the check
`!el.origAppearance` in `highlightShape`). -/
def jsFalsy : JSVal → Bool
  | undef => true
  | null => true
  | str s => s = ""

/-- Coercion applied by the `outerHTML` setter, which is declared
`[LegacyNullToEmptyString] DOMString`: `null` becomes the empty string,
`undefined` is stringified to `"undefined"`, a string is itself. -/
def toDOMString : JSVal → String
  | undef => "undefined"
  | null => ""
  | str s => s

end JSVal

/-!
## The load-completion signal (constructor, lines 20-32)

```js
this.inlineLoaded = new Promise(resolve => {
    var inlineList = this.dom.querySelectorAll("inline"),
        loadedCnt = 0;
    if (inlineList.length == 0)
        resolve();
    inlineList.forEach(
        el => el.addEventListener("load", () => {
            if (++loadedCnt >= inlineList.length) resolve();
        })
    );
});
```

The state of the executor is the target count (`inlineList.length`), the shared
counter `loadedCnt`, and the number of times `resolve()` has been invoked.
Each `inline` element gets one `load` listener registered with plain
`addEventListener` (no `once` option), so the listener is persistent: every
`load` event delivered to an element runs the listener of that element, which
increments the shared counter regardless of which element fired.  Promise
semantics make `resolve()` idempotent: only the first invocation settles
the promise.
-/

/-- State of the `inlineLoaded` promise executor. -/
structure InlineState where
  /-- `inlineList.length`: number of `inline` elements found at construction. -/
  target : Nat
  /-- `loadedCnt`: shared counter incremented by every listener invocation. -/
  loadedCnt : Nat
  /-- Number of times `resolve()` has been invoked (the promise itself
  settles on the first invocation only). -/
  resolveCalls : Nat
deriving DecidableEq, Repr

/-- The executor body at construction: the counter starts at 0, and if the
inline list is empty `resolve()` is called immediately. -/
def initState (n : Nat) : InlineState :=
  { target := n, loadedCnt := 0, resolveCalls := if n = 0 then 1 else 0 }

/-- The `load` listener body: increment the shared counter and call
`resolve()` when it has reached the target.  The element index the event
was delivered to is irrelevant to the handler, which closes over the
shared counter. -/
def onLoad (s : InlineState) : InlineState :=
  if s.target ≤ s.loadedCnt + 1 then
    { s with loadedCnt := s.loadedCnt + 1, resolveCalls := s.resolveCalls + 1 }
  else
    { s with loadedCnt := s.loadedCnt + 1 }

/-- Deliver a sequence of `load` events; each entry is the index of the
`inline` element the event fires on (its persistent listener runs once per
event). -/
def runEvents (s : InlineState) (evs : List Nat) : InlineState :=
  evs.foldl (fun s _ => onLoad s) s

/-- How many times the promise actually resolved: `resolve()` is
idempotent, so the promise settles at most once however many times the
executor invokes it. -/
def promiseResolutions (s : InlineState) : Nat :=
  min s.resolveCalls 1

/-- Whether the `inlineLoaded` promise has resolved. -/
def isResolved (s : InlineState) : Bool :=
  1 ≤ s.resolveCalls

/-!
## Module-level helpers (lines 46-80)

`getRadian`, `getDegree` and `hexToRgbLine` are plain functions (the
`typeof ... === "undefined"` redefinition guards have no semantic
effect in a single-copy load and are not modelled).
-/

/-- The IEEE double `Math.PI`, as an exact rational:
`884279719003555 / 2^48` is the double closest to pi. -/
def mathPI : ℚ := 884279719003555 / 281474976710656

/-- `getRadian(deg) = Math.PI * deg / 180` (line 49). -/
def getRadian (deg : ℚ) : ℚ := mathPI * deg / 180

/-- `getDegree(rad) = rad * 180 / Math.PI` (line 61). -/
def getDegree (rad : ℚ) : ℚ := rad * 180 / mathPI

/-- Is this character one of the whitespace characters `parseInt` strips
(space, tab, LF, CR)?  Characters are compared through their code points. -/
def jsIsSpace (c : Char) : Bool :=
  c.toNat = 32 ∨ c.toNat = 9 ∨ c.toNat = 10 ∨ c.toNat = 13

/-- The numeric value of a hexadecimal digit (`0-9`, `a-f`, `A-F`),
through its code point; `none` for any other character. -/
def hexDigitVal (c : Char) : Option Nat :=
  if 48 ≤ c.toNat ∧ c.toNat ≤ 57 then some (c.toNat - 48)
  else if 97 ≤ c.toNat ∧ c.toNat ≤ 102 then some (c.toNat - 87)
  else if 65 ≤ c.toNat ∧ c.toNat ≤ 70 then some (c.toNat - 55)
  else none

/-- Strip an optional leading sign, as `parseInt` does; returns whether
the sign was `-` and the remaining characters (`-` is code 45, `+` is 43). -/
def stripSign : List Char → Bool × List Char
  | c :: rest =>
      if c.toNat = 45 then (true, rest)
      else if c.toNat = 43 then (false, rest)
      else (false, c :: rest)
  | [] => (false, [])

/-- Strip a leading `0x` / `0X`, as `parseInt` with radix 16 does
(`0` is code 48, `x` is 120, `X` is 88). -/
def strip0x : List Char → List Char
  | a :: b :: rest =>
      if a.toNat = 48 ∧ (b.toNat = 120 ∨ b.toNat = 88) then rest
      else a :: b :: rest
  | cs => cs

/-- Accumulate the value of the longest leading run of hex digits
(`parseInt` ignores everything from the first non-digit on). -/
def hexRun : List Char → Nat → Nat
  | c :: cs, acc =>
      match hexDigitVal c with
      | some d => hexRun cs (16 * acc + d)
      | none => acc
  | [], acc => acc

/-- Whether the character list starts with a hex digit (`parseInt`
returns `NaN` when not a single digit can be consumed). -/
def headIsHexDigit (cs : List Char) : Bool :=
  match cs with
  | c :: _ => (hexDigitVal c).isSome
  | [] => false

/-- `parseInt(s, 16)` on an optional string: an absent string (`undefined`
array slot) stringifies to `"undefined"`, which yields `NaN`; otherwise
leading whitespace is stripped, then an optional sign, then an optional
`0x`/`0X`, and the longest run of hex digits is converted — `NaN` if that
run is empty. -/
def parseIntHexJS : Option String → JSNum
  | none => JSNum.nan
  | some s =>
      let cs := s.data.dropWhile jsIsSpace
      let sg := stripSign cs
      let body := strip0x sg.2
      if headIsHexDigit body then
        let v : ℚ := hexRun body 0
        JSNum.fin (if sg.1 then -v else v)
      else JSNum.nan

/-- `hex.match(/.{1,2}/g)`: split the string into chunks of two
characters, the last chunk possibly a single character.  (For the empty
string, JS `match` returns `null` and the subsequent `parts[0]` access in
`hexToRgbLine` throws a `TypeError`; the model returns the empty list
instead, which makes the channels `NaN` — the claims under verification
never evaluate the function there.  That the regex dot does not match
line terminators is likewise not modelled.) -/
def jsMatchChunks (s : String) : List String :=
  chunk s.data
where
  /-- Split a character list into strings of two, last possibly one. -/
  chunk : List Char → List String
    | [] => []
    | [c] => [String.mk [c]]
    | a :: b :: rest => String.mk [a, b] :: chunk rest

/-- The three colour channels computed by `hexToRgbLine` (lines 73-76):
`r`, `g`, `b` are `parseInt(parts[i], 16) / 255` for the first three
chunks of the input. -/
def hexToRgbChannels (hex : String) : List JSNum :=
  let parts := jsMatchChunks hex
  [ JSNum.jsDiv (parseIntHexJS (parts.get? 0)) (JSNum.fin 255),
    JSNum.jsDiv (parseIntHexJS (parts.get? 1)) (JSNum.fin 255),
    JSNum.jsDiv (parseIntHexJS (parts.get? 2)) (JSNum.fin 255) ]

/-- `hexToRgbLine(hex)` (lines 72-79): `[r, g, b]` joined with single spaces. -/
def hexToRgbLine (hex : String) : String :=
  String.intercalate " " ((hexToRgbChannels hex).map JSNum.jsNumToString)

/-!
## Camera operations (prototype methods, lines 150-330)

The 4x4 matrices of the engine are kept symbolic: the code only ever reads the
current view matrix, builds rotation/scaling matrices, composes them with
`mult`, and hands the result to `_updateViewpoint`.  The matrix-building
and matrix-composition steps a method performs, in order, are recorded in
a trace of `Op`s, so that a claim about *when* an error is raised relative
to matrix work is a statement about the trace. -/

/-- A symbolic x3dom matrix: the current view matrix,
`x3dom.fields.SFMatrix4f.rotationX/rotationY` of a radian angle,
`SFMatrix4f.scale` of an `SFVec3f`, or a `mult` composition. -/
inductive Mat where
  | view : Mat
  | rotationX : ℚ → Mat
  | rotationY : ℚ → Mat
  | scale : JSNum → JSNum → JSNum → Mat
  | mult : Mat → Mat → Mat
deriving DecidableEq, Repr

/-- One observable step of a camera operation. -/
inductive Op where
  /-- `this._getCameraMeta()`: read canvas, viewpoint and current view matrix. -/
  | getCameraMeta : Op
  /-- `x3dom.fields.SFMatrix4f.rotationX(rad)`. -/
  | buildRotationX : ℚ → Op
  /-- `x3dom.fields.SFMatrix4f.rotationY(rad)`. -/
  | buildRotationY : ℚ → Op
  /-- `x3dom.fields.SFMatrix4f.scale(new SFVec3f(s, s, s))`. -/
  | buildScale : JSNum → Op
  /-- `camera.matrix.mult(...)`: one matrix composition. -/
  | multiply : Op
  /-- `this._updateViewpoint(matrix, animate, duration)`. -/
  | updateViewpoint : Mat → Bool → ℚ → Op
deriving DecidableEq, Repr

/-- Does this trace step build or compose a matrix? -/
def Op.isMatrixWork : Op → Bool
  | Op.buildRotationX _ => true
  | Op.buildRotationY _ => true
  | Op.buildScale _ => true
  | Op.multiply => true
  | _ => false

/-- `X3DomHelper.X_AXIS` is the string `x` (line 86). -/
def X_AXIS : String := "x"

/-- `X3DomHelper.Y_AXIS` is the string `y` (line 87). -/
def Y_AXIS : String := "y"

/-- `rotate(axis, angle, animate = true, duration = 400)` (lines 216-240):
reads the camera meta, converts the angle to radians, builds the rotation
matrix for the axis — throwing a `RangeError` for any axis other than
`X_AXIS`/`Y_AXIS` — multiplies the current view matrix by it, and passes
the result to `_updateViewpoint`.  Returns the trace of steps performed
and either the new matrix or the thrown error message. -/
def rotate (current : Mat) (axis : String) (angle : ℚ)
    (animate : Bool := true) (duration : ℚ := 400) :
    List Op × Except String Mat :=
  let rad := getRadian angle
  if axis = X_AXIS then
    let newMatrix := Mat.mult current (Mat.rotationX rad)
    ([Op.getCameraMeta, Op.buildRotationX rad, Op.multiply,
      Op.updateViewpoint newMatrix animate duration],
     Except.ok newMatrix)
  else if axis = Y_AXIS then
    let newMatrix := Mat.mult current (Mat.rotationY rad)
    ([Op.getCameraMeta, Op.buildRotationY rad, Op.multiply,
      Op.updateViewpoint newMatrix animate duration],
     Except.ok newMatrix)
  else
    ([Op.getCameraMeta],
     Except.error ("Axis \"" ++ axis ++ "\" is not supported!"))

/-- The scalar `zoom` computes (line 289):
`zoomValue > 0 ? (1 * zoomValue) : Math.abs(1 / zoomValue)`. -/
def zoomScalar (zoomValue : ℚ) : JSNum :=
  if 0 < zoomValue then JSNum.fin (1 * zoomValue)
  else JSNum.jsAbs (JSNum.jsDiv (JSNum.fin 1) (JSNum.fin zoomValue))

/-- `zoom(zoomValue = 2, animate = true, duration = 400)` (lines 287-306):
reads the camera meta, computes the scalar, builds the uniform scaling
matrix, multiplies the current view matrix by it, and passes the result to
`_updateViewpoint`. -/
def zoom (current : Mat) (zoomValue : ℚ := 2)
    (animate : Bool := true) (duration : ℚ := 400) :
    List Op × Except String Mat :=
  let scalar := zoomScalar zoomValue
  let newMatrix := Mat.mult current (Mat.scale scalar scalar scalar)
  ([Op.getCameraMeta, Op.buildScale scalar, Op.multiply,
    Op.updateViewpoint newMatrix animate duration],
   Except.ok newMatrix)

/-- `zoomIn(zoomValue = 2, ...)` (lines 314-317):
`zoomValue = Math.abs(zoomValue); this.zoom(zoomValue, animate, duration)`. -/
def zoomIn (current : Mat) (zoomValue : ℚ := 2)
    (animate : Bool := true) (duration : ℚ := 400) :
    List Op × Except String Mat :=
  zoom current |zoomValue| animate duration

/-- `zoomOut(zoomValue = 2, ...)` (lines 326-329):
`zoomValue = Math.abs(zoomValue) * -1; this.zoom(zoomValue, animate, duration)`. -/
def zoomOut (current : Mat) (zoomValue : ℚ := 2)
    (animate : Bool := true) (duration : ℚ := 400) :
    List Op × Except String Mat :=
  zoom current (|zoomValue| * -1) animate duration

/-- The argument bundle of one `this.rotate(...)` invocation. -/
structure RotateCall where
  axis : String
  angle : ℚ
  animate : Bool
  duration : ℚ
deriving DecidableEq, Repr

/-- A callback handed to `setTimeout`: the rotate call it will perform and
the requested delay in milliseconds. -/
structure ScheduledTask where
  delay : ℚ
  call : RotateCall
deriving DecidableEq, Repr

/-- `rotateRoundY(duration = 4000)` (lines 247-254): issue
`rotate(Y_AXIS, 180, true, duration / 2)` immediately and schedule an
identical call via `setTimeout` with delay `duration / 2`. -/
def rotateRoundY (duration : ℚ := 4000) : RotateCall × ScheduledTask :=
  let halfTime := duration / 2
  (⟨Y_AXIS, 180, true, halfTime⟩,
   ⟨halfTime, ⟨Y_AXIS, 180, true, halfTime⟩⟩)

/-- Perform a recorded rotate call against a current view matrix. -/
def execRotateCall (current : Mat) (rc : RotateCall) :
    List Op × Except String Mat :=
  rotate current rc.axis rc.angle rc.animate rc.duration

/-- The browser timer contract consumed by `rotateRoundY` (external
collaborator): a callback scheduled at time `issuedAt` with the given
`delay` may fire at time `t` only if at least `delay` milliseconds have
elapsed; `setTimeout` guarantees no early firing, with no upper bound. -/
def timerFiresAt (issuedAt delay t : ℚ) : Prop :=
  issuedAt + delay ≤ t

/-!
## Appearance operations (lines 124-144)

A shape element is modelled by the two pieces of state the code touches:
the markup (`outerHTML`) of its `<appearance>` child, and the ad hoc
`origAppearance` property stashed on the element (initially the JS value
`undefined`). -/

/-- The observable state of a shape element. -/
structure ShapeEl where
  /-- `el.querySelector("appearance").outerHTML`. -/
  appearance : String
  /-- `el.origAppearance`: `undefined` until first stashed. -/
  origAppearance : JSVal
deriving DecidableEq, Repr

/-- `X3DomHelper.highlightShape(el, color = "FF0000")` (lines 124-132):
convert the colour, stash the current appearance markup unless a truthy
stash already exists, then replace the appearance with a minimal
`<Appearance><Material diffuseColor="..."></Material></Appearance>`. -/
def highlightShape (el : ShapeEl) (color : String := "FF0000") : ShapeEl :=
  let rgb := hexToRgbLine color
  let el :=
    if JSVal.jsFalsy el.origAppearance then
      { el with origAppearance := JSVal.str el.appearance }
    else el
  { el with appearance :=
      "<Appearance><Material diffuseColor=\"" ++ rgb ++
      "\"></Material></Appearance>" }

/-- `X3DomHelper.restoreShapeColor(el)` (lines 139-144): write the stash
back into the `outerHTML` of the appearance (through the DOMString
coercion of the setter) and null out the stash. -/
def restoreShapeColor (el : ShapeEl) : ShapeEl :=
  { el with appearance := JSVal.toDOMString el.origAppearance,
            origAppearance := JSVal.null }

/-!
## Helper lemmas
-/

/-- A hex digit is not one of the whitespace characters `parseInt` strips. -/
theorem hexDigitVal_not_space {c : Char} {d : Nat} (h : hexDigitVal c = some d) :
    jsIsSpace c = false := by
  unfold hexDigitVal at h
  unfold jsIsSpace
  simp only [decide_eq_false_iff_not]
  split at h <;> first
    | omega
    | (split at h <;> first
        | omega
        | (split at h <;> first | omega | simp_all))

/-- The code point of a hex digit lies in one of the three digit ranges. -/
theorem hexDigitVal_range {c : Char} {d : Nat} (h : hexDigitVal c = some d) :
    (48 ≤ c.toNat ∧ c.toNat ≤ 57) ∨ (97 ≤ c.toNat ∧ c.toNat ≤ 102) ∨
      (65 ≤ c.toNat ∧ c.toNat ≤ 70) := by
  unfold hexDigitVal at h
  split at h <;> first
    | omega
    | (split at h <;> first
        | omega
        | (split at h <;> first | omega | simp_all))

/-- `parseInt(s, 16)` on a two-hex-digit string is the byte with those two
digits. -/
theorem parseIntHexJS_pair {a b : Char} {da db : Nat}
    (hA : hexDigitVal a = some da) (hB : hexDigitVal b = some db) :
    parseIntHexJS (some (String.mk [a, b])) = JSNum.fin ((16 * da + db : ℕ) : ℚ) := by
  have hsA : jsIsSpace a = false := hexDigitVal_not_space hA
  have haRange := hexDigitVal_range hA
  have hbRange := hexDigitVal_range hB
  have h45 : a.toNat ≠ 45 := by omega
  have h43 : a.toNat ≠ 43 := by omega
  have hb120 : ¬ (a.toNat = 48 ∧ (b.toNat = 120 ∨ b.toNat = 88)) := by omega
  simp [parseIntHexJS, List.dropWhile, hsA, stripSign, h45, h43, strip0x,
    hb120, headIsHexDigit, hA, hB, hexRun]

/-- `parseInt("FF", 16) = 255`. -/
theorem parseIntHexJS_FF : parseIntHexJS (some "FF") = JSNum.fin 255 := by
  have h := @parseIntHexJS_pair 'F' 'F' 15 15 rfl rfl
  norm_num at h
  exact h

/-- `parseInt("00", 16) = 0`. -/
theorem parseIntHexJS_00 : parseIntHexJS (some "00") = JSNum.fin 0 := by
  have h := @parseIntHexJS_pair '0' '0' 0 0 rfl rfl
  norm_num at h
  exact h

/-- Closed form for the executor state after a sequence of load events:
the counter advances by one per event, and `resolve()` has been invoked
once for every event at which the incremented counter was at least the
target. -/
theorem runEvents_closed (n c r : Nat) (evs : List Nat) :
    runEvents ⟨n, c, r⟩ evs =
      ⟨n, c + evs.length, r + (c + evs.length + 1 - max n (c + 1))⟩ := by
  induction evs generalizing c r with
  | nil =>
      simp only [runEvents, List.foldl_nil, List.length_nil, InlineState.mk.injEq]
      exact ⟨trivial, by omega, by omega⟩
  | cons e rest ih =>
      have hstep : runEvents ⟨n, c, r⟩ (e :: rest) =
          runEvents (onLoad ⟨n, c, r⟩) rest := rfl
      rw [hstep]
      unfold onLoad
      by_cases h : n ≤ c + 1
      · simp only [if_pos h]
        rw [ih]
        simp only [List.length_cons, InlineState.mk.injEq]
        exact ⟨trivial, by omega, by omega⟩
      · simp only [if_neg h]
        rw [ih]
        simp only [List.length_cons, InlineState.mk.injEq]
        exact ⟨trivial, by omega, by omega⟩

/-- Once stashed, a nonempty original appearance survives any further
sequence of highlight calls: the stash check sees a truthy value and
leaves it alone. -/
theorem foldl_highlight_stash (a : String) (ha : a ≠ "") (cs : List String) :
    ∀ s : ShapeEl, s.origAppearance = JSVal.str a →
      (cs.foldl (fun s c => highlightShape s c) s).origAppearance = JSVal.str a := by
  induction cs with
  | nil => intro s hs; simpa using hs
  | cons c rest ih =>
      intro s hs
      have hstep : (c :: rest).foldl (fun s c => highlightShape s c) s =
          rest.foldl (fun s c => highlightShape s c) (highlightShape s c) := rfl
      rw [hstep]
      apply ih
      unfold highlightShape
      simp [JSVal.jsFalsy, ha, hs]

/-!
## Claim theorems
-/

/-- Claim C1: the load-completion signal resolves exactly once: with zero
inline references it resolves immediately (even before any event), with a
positive target it resolves exactly when the completed-load count reaches
the target, and load events delivered after resolution never produce a
second resolution or an error — the resolution count is exactly one as
soon as the target is met and never exceeds one. -/
theorem inlineLoaded_resolution_count (n : Nat) (evs : List Nat) :
    promiseResolutions (runEvents (initState n) evs) =
      if n = 0 ∨ n ≤ evs.length then 1 else 0 := by
  unfold initState
  rw [runEvents_closed]
  unfold promiseResolutions
  dsimp only
  split_ifs <;> omega

/-- Claim C2 counterexample: with two inline references and two load
events both fired by element 0 (element 1 never loads), the signal
nevertheless resolves — repeated loads of a single element do resolve it
while another element remains unloaded, because the listeners are not
one-time and the shared counter counts every event. -/
theorem singleElement_repeated_loads_resolve :
    isResolved (runEvents (initState 2) [0, 0]) = true ∧
      ([0, 0].contains 1) = false := by
  decide

/-- Claim C2 (amended): the listener attached to each inline element is a
persistent (not one-time) listener sharing one counter, so the counter
equals the total number of load events delivered, and for a positive
target the signal resolves exactly when that total reaches the target —
regardless of which elements the events came from. -/
theorem inlineLoaded_counts_events (n : Nat) (evs : List Nat) (hn : 0 < n) :
    (runEvents (initState n) evs).loadedCnt = evs.length ∧
      (isResolved (runEvents (initState n) evs) = true ↔ n ≤ evs.length) := by
  have hn0 : ¬ n = 0 := by omega
  unfold initState
  rw [runEvents_closed]
  unfold isResolved
  dsimp only
  simp only [hn0, if_false, zero_add, decide_eq_true_eq]
  exact ⟨trivial, by constructor <;> intro h <;> omega⟩

/-- Witness for C2 (amended): two inline references, two load events. -/
theorem inlineLoaded_counts_events_witness :
    (runEvents (initState 2) [0, 0]).loadedCnt = [0, 0].length ∧
      (isResolved (runEvents (initState 2) [0, 0]) = true ↔ 2 ≤ [0, 0].length) :=
  inlineLoaded_counts_events 2 [0, 0] (by norm_num)

/-- Claim C3: for any axis other than `X_AXIS` and `Y_AXIS`, `rotate`
throws a `RangeError` whose message names the offending axis, and the
trace up to the throw contains no matrix build and no matrix composition
— only the camera-meta read that precedes the dispatch. -/
theorem rotate_invalid_axis_error (current : Mat) (axis : String) (angle : ℚ)
    (animate : Bool) (duration : ℚ) (hx : axis ≠ X_AXIS) (hy : axis ≠ Y_AXIS) :
    rotate current axis angle animate duration =
      ([Op.getCameraMeta],
       Except.error ("Axis \"" ++ axis ++ "\" is not supported!")) ∧
      ∀ op ∈ (rotate current axis angle animate duration).1,
        op.isMatrixWork = false := by
  unfold rotate
  simp [hx, hy, Op.isMatrixWork]

/-- Witness for C3: the unsupported axis `"z"`. -/
theorem rotate_invalid_axis_error_witness :
    rotate Mat.view "z" 90 true 400 =
      ([Op.getCameraMeta],
       Except.error ("Axis \"" ++ "z" ++ "\" is not supported!")) ∧
      ∀ op ∈ (rotate Mat.view "z" 90 true 400).1, op.isMatrixWork = false :=
  rotate_invalid_axis_error Mat.view "z" 90 true 400 (by decide) (by decide)

/-- Claim C4: for each valid axis, `rotate` builds the axis-specific
rotation matrix from the degree angle converted to radians and composes
it with the current view matrix on the right of `mult` (i.e.
`current.mult(rotation)`), and `zoom` builds the uniform scaling matrix
from its scalar the same way; in both cases the composed matrix is the
one handed to the viewpoint update step. -/
theorem rotate_zoom_compose (current : Mat) (angle v : ℚ) (animate : Bool)
    (duration : ℚ) :
    rotate current X_AXIS angle animate duration =
      ([Op.getCameraMeta, Op.buildRotationX (getRadian angle), Op.multiply,
        Op.updateViewpoint (Mat.mult current (Mat.rotationX (getRadian angle)))
          animate duration],
       Except.ok (Mat.mult current (Mat.rotationX (getRadian angle)))) ∧
    rotate current Y_AXIS angle animate duration =
      ([Op.getCameraMeta, Op.buildRotationY (getRadian angle), Op.multiply,
        Op.updateViewpoint (Mat.mult current (Mat.rotationY (getRadian angle)))
          animate duration],
       Except.ok (Mat.mult current (Mat.rotationY (getRadian angle)))) ∧
    zoom current v animate duration =
      ([Op.getCameraMeta, Op.buildScale (zoomScalar v), Op.multiply,
        Op.updateViewpoint
          (Mat.mult current (Mat.scale (zoomScalar v) (zoomScalar v) (zoomScalar v)))
          animate duration],
       Except.ok (Mat.mult current
         (Mat.scale (zoomScalar v) (zoomScalar v) (zoomScalar v)))) := by
  refine ⟨?_, ?_, rfl⟩
  · unfold rotate
    simp [X_AXIS]
  · unfold rotate
    simp [X_AXIS, Y_AXIS]

/-- Claim C5: a positive zoom factor is used as the scale factor itself, a
negative factor yields the reciprocal of its absolute value, and
`zoomIn`/`zoomOut` normalise the sign of the factor (to `+|v|` resp.
`-|v|`) before delegating to `zoom`. -/
theorem zoom_sign_normalization (current : Mat) (v : ℚ) (animate : Bool)
    (duration : ℚ) :
    (0 < v → zoomScalar v = JSNum.fin v) ∧
    (v < 0 → zoomScalar v = JSNum.fin (1 / |v|)) ∧
    zoomIn current v animate duration = zoom current |v| animate duration ∧
    zoomOut current v animate duration = zoom current (-|v|) animate duration := by
  refine ⟨?_, ?_, rfl, ?_⟩
  · intro hv
    unfold zoomScalar
    simp [hv]
  · intro hv
    have hv0 : v ≠ 0 := ne_of_lt hv
    unfold zoomScalar
    rw [if_neg (not_lt.mpr hv.le)]
    simp [JSNum.jsDiv, JSNum.jsAbs, hv0, abs_div, abs_inv]
  · unfold zoomOut
    rw [show (|v| * -1 : ℚ) = -|v| by ring]

/-- Witness for C5: factors `2` and `-2`. -/
theorem zoom_sign_normalization_witness :
    zoomScalar 2 = JSNum.fin 2 ∧ zoomScalar (-2) = JSNum.fin (1 / |(-2 : ℚ)|) :=
  ⟨(zoom_sign_normalization Mat.view 2 true 400).1 (by norm_num),
   (zoom_sign_normalization Mat.view (-2) true 400).2.1 (by norm_num)⟩

/-- Claim C6: for a shape element with no (truthy) stash and a nonempty
appearance markup — the `outerHTML` of an existing element is never the
empty string — the first highlight stashes the current appearance, any
further sequence of highlight calls with arbitrary colours leaves that
stash unchanged, and a subsequent restore reinstates exactly the markup
captured before the first highlight and clears the stash. -/
theorem highlight_stash_restore (el : ShapeEl) (c : String) (cs : List String)
    (h0 : JSVal.jsFalsy el.origAppearance = true) (hne : el.appearance ≠ "") :
    (cs.foldl (fun s c => highlightShape s c) (highlightShape el c)).origAppearance =
        JSVal.str el.appearance ∧
      (restoreShapeColor
          (cs.foldl (fun s c => highlightShape s c) (highlightShape el c))).appearance =
        el.appearance ∧
      (restoreShapeColor
          (cs.foldl (fun s c => highlightShape s c) (highlightShape el c))).origAppearance =
        JSVal.null := by
  have hfirst : (highlightShape el c).origAppearance = JSVal.str el.appearance := by
    unfold highlightShape
    simp [h0]
  have hstash := foldl_highlight_stash el.appearance hne cs (highlightShape el c) hfirst
  refine ⟨hstash, ?_, rfl⟩
  unfold restoreShapeColor
  rw [hstash]
  rfl

/-- Witness for C6: one highlight in red, one further highlight in green,
then restore. -/
theorem highlight_stash_restore_witness :
    (["00FF00"].foldl (fun s c => highlightShape s c)
        (highlightShape ⟨"<Appearance>orig</Appearance>", JSVal.undef⟩ "FF0000")).origAppearance =
        JSVal.str "<Appearance>orig</Appearance>" ∧
      (restoreShapeColor
          (["00FF00"].foldl (fun s c => highlightShape s c)
            (highlightShape ⟨"<Appearance>orig</Appearance>", JSVal.undef⟩ "FF0000"))).appearance =
        "<Appearance>orig</Appearance>" ∧
      (restoreShapeColor
          (["00FF00"].foldl (fun s c => highlightShape s c)
            (highlightShape ⟨"<Appearance>orig</Appearance>", JSVal.undef⟩ "FF0000"))).origAppearance =
        JSVal.null :=
  highlight_stash_restore ⟨"<Appearance>orig</Appearance>", JSVal.undef⟩
    "FF0000" ["00FF00"] (by decide) (by decide)

/-- Claim C7: restoring an element that was never highlighted raises no
error in this code: the appearance markup is overwritten with the
coercion of the absent (`undefined`) stash — the text `"undefined"`, not
element markup, so the appearance element is destroyed rather than kept
(no no-op) — and the stash field is set to `null`. -/
theorem restore_without_stash (el : ShapeEl)
    (h : el.origAppearance = JSVal.undef) :
    restoreShapeColor el = ⟨JSVal.toDOMString JSVal.undef, JSVal.null⟩ ∧
      JSVal.toDOMString JSVal.undef = "undefined" ∧
      (el.appearance ≠ "undefined" →
        (restoreShapeColor el).appearance ≠ el.appearance) := by
  unfold restoreShapeColor
  rw [h]
  exact ⟨rfl, rfl, fun hne heq => hne (by simpa using heq.symm)⟩

/-- Witness for C7: a never-highlighted element. -/
theorem restore_without_stash_witness :
    restoreShapeColor ⟨"<Appearance></Appearance>", JSVal.undef⟩ =
        ⟨JSVal.toDOMString JSVal.undef, JSVal.null⟩ ∧
      JSVal.toDOMString JSVal.undef = "undefined" ∧
      ((⟨"<Appearance></Appearance>", JSVal.undef⟩ : ShapeEl).appearance ≠ "undefined" →
        (restoreShapeColor ⟨"<Appearance></Appearance>", JSVal.undef⟩).appearance ≠
          (⟨"<Appearance></Appearance>", JSVal.undef⟩ : ShapeEl).appearance) :=
  restore_without_stash ⟨"<Appearance></Appearance>", JSVal.undef⟩ rfl

/-- Claim C8: `rotateRoundY(duration)` issues an immediate
`rotate(Y_AXIS, 180, true, duration/2)` and schedules an identical call
with timer delay `duration/2`; under the timer contract the scheduled
call can never be issued before `duration/2` milliseconds have elapsed
since scheduling (for `duration = 4000`, before 2000 ms). -/
theorem rotateRoundY_two_half_turns (d t0 t : ℚ) (current : Mat) :
    rotateRoundY d =
        (⟨Y_AXIS, 180, true, d / 2⟩, ⟨d / 2, ⟨Y_AXIS, 180, true, d / 2⟩⟩) ∧
      execRotateCall current (rotateRoundY d).1 =
        rotate current Y_AXIS 180 true (d / 2) ∧
      (rotateRoundY 4000).2.delay = 2000 ∧
      (timerFiresAt t0 (rotateRoundY d).2.delay t → t0 + d / 2 ≤ t) :=
  ⟨rfl, rfl, by norm_num [rotateRoundY], fun h => h⟩

/-- Witness for C8: duration 4000, scheduled at time 0, firing at 2000. -/
theorem rotateRoundY_two_half_turns_witness :
    rotateRoundY 4000 =
        (⟨Y_AXIS, 180, true, 4000 / 2⟩, ⟨4000 / 2, ⟨Y_AXIS, 180, true, 4000 / 2⟩⟩) ∧
      (0 : ℚ) + 4000 / 2 ≤ 2000 :=
  ⟨(rotateRoundY_two_half_turns 4000 0 2000 Mat.view).1,
   (rotateRoundY_two_half_turns 4000 0 2000 Mat.view).2.2.2
     (by norm_num [rotateRoundY, timerFiresAt])⟩

/-- Claim C9: on a six-hex-digit string the chunking produces three
two-digit parts and each channel is the parsed byte value divided by 255;
on the enumerated inputs the full string results are `"1 0 0"`,
`"0 0 0"` and `"1 1 1"`. -/
theorem hexToRgbLine_channels (c0 c1 c2 c3 c4 c5 : Char) (d0 d1 d2 d3 d4 d5 : ℕ)
    (h0 : hexDigitVal c0 = some d0) (h1 : hexDigitVal c1 = some d1)
    (h2 : hexDigitVal c2 = some d2) (h3 : hexDigitVal c3 = some d3)
    (h4 : hexDigitVal c4 = some d4) (h5 : hexDigitVal c5 = some d5) :
    hexToRgbChannels (String.mk [c0, c1, c2, c3, c4, c5]) =
        [JSNum.fin (((16 * d0 + d1 : ℕ) : ℚ) / 255),
         JSNum.fin (((16 * d2 + d3 : ℕ) : ℚ) / 255),
         JSNum.fin (((16 * d4 + d5 : ℕ) : ℚ) / 255)] ∧
      hexToRgbLine "FF0000" = "1 0 0" ∧
      hexToRgbLine "000000" = "0 0 0" ∧
      hexToRgbLine "FFFFFF" = "1 1 1" := by
  refine ⟨?_, ?_, ?_, ?_⟩
  · have hchunks : jsMatchChunks (String.mk [c0, c1, c2, c3, c4, c5]) =
        [String.mk [c0, c1], String.mk [c2, c3], String.mk [c4, c5]] := rfl
    unfold hexToRgbChannels
    rw [hchunks]
    simp only [List.get?]
    rw [parseIntHexJS_pair h0 h1, parseIntHexJS_pair h2 h3, parseIntHexJS_pair h4 h5]
    simp [JSNum.jsDiv]
  · simp [hexToRgbLine, hexToRgbChannels,
      show jsMatchChunks "FF0000" = ["FF", "00", "00"] from rfl,
      parseIntHexJS_FF, parseIntHexJS_00, JSNum.jsDiv, JSNum.jsNumToString,
      String.intercalate]
    rfl
  · simp [hexToRgbLine, hexToRgbChannels,
      show jsMatchChunks "000000" = ["00", "00", "00"] from rfl,
      parseIntHexJS_00, JSNum.jsDiv, JSNum.jsNumToString, String.intercalate]
    rfl
  · simp [hexToRgbLine, hexToRgbChannels,
      show jsMatchChunks "FFFFFF" = ["FF", "FF", "FF"] from rfl,
      parseIntHexJS_FF, JSNum.jsDiv, JSNum.jsNumToString, String.intercalate]
    rfl

/-- Witness for C9: the input `"FF0000"` digit by digit. -/
theorem hexToRgbLine_channels_witness :
    hexToRgbChannels (String.mk ['F', 'F', '0', '0', '0', '0']) =
        [JSNum.fin (((16 * 15 + 15 : ℕ) : ℚ) / 255),
         JSNum.fin (((16 * 0 + 0 : ℕ) : ℚ) / 255),
         JSNum.fin (((16 * 0 + 0 : ℕ) : ℚ) / 255)] ∧
      hexToRgbLine "FF0000" = "1 0 0" ∧
      hexToRgbLine "000000" = "0 0 0" ∧
      hexToRgbLine "FFFFFF" = "1 1 1" :=
  hexToRgbLine_channels 'F' 'F' '0' '0' '0' '0' 15 15 0 0 0 0
    rfl rfl rfl rfl rfl rfl

/-- Claim C10: `zoom` is division-safe only for a nonzero factor: at
factor `0` the positive-branch guard `zoomValue > 0` fails, the scalar is
computed as `Math.abs(1 / 0)` — an unguarded division by zero yielding
`Infinity` — and that infinite scale factor flows into the scaling matrix
and the composed view matrix. -/
theorem zoom_zero_unguarded_division (current : Mat) (animate : Bool)
    (duration : ℚ) :
    ¬ (0 < (0 : ℚ)) ∧
      JSNum.jsDiv (JSNum.fin 1) (JSNum.fin 0) = JSNum.posInf ∧
      zoomScalar 0 = JSNum.posInf ∧
      zoom current 0 animate duration =
        ([Op.getCameraMeta, Op.buildScale JSNum.posInf, Op.multiply,
          Op.updateViewpoint
            (Mat.mult current (Mat.scale JSNum.posInf JSNum.posInf JSNum.posInf))
            animate duration],
         Except.ok (Mat.mult current
           (Mat.scale JSNum.posInf JSNum.posInf JSNum.posInf))) := by
  have hdiv : JSNum.jsDiv (JSNum.fin 1) (JSNum.fin 0) = JSNum.posInf := by
    unfold JSNum.jsDiv
    norm_num
  have hs : zoomScalar 0 = JSNum.posInf := by
    unfold zoomScalar
    rw [if_neg (by norm_num), hdiv]
    rfl
  refine ⟨by norm_num, hdiv, hs, ?_⟩
  unfold zoom
  rw [hs]
